import Mathlib

/-!
Shallow embedding of the ADA clinical-decision-support core
(`ada_cds`: `models.py`, `config.py`, `temporal.py`, `ontology_service.py`,
`rule_registry.py`, `engine.py`) and verification of the spec's claims
about it.

Conventions of the embedding:
* Python `datetime.date` values are modelled as integers (days on a linear
  timeline); `(a - b).days` becomes integer subtraction.  The wall clock
  `date.today()` is passed in explicitly as a `today` parameter.
* Python `float` values (lab values, thresholds, vitals) are modelled as
  rationals `Rat`; the claims under study are about control flow and
  comparisons, not floating-point rounding.
* Python exceptions are modelled with `Except PyError`; a function that
  cannot raise returns a plain value.
* Python `dict`s (insertion ordered) are association lists; Python `set`s
  are lists with insertion-ordered deduplication (`addUnique`), which is
  faithful for membership and emptiness.
* The `rdflib` graph behind `OntologyService` is an external collaborator;
  it is modelled as opaque query functions (`sameAs`, `exactMatch`,
  transitive `subClassOf`, SPARQL result rows) carried by the
  `OntologyService` structure.
-/

namespace ADA

/-- Python `datetime.date`, as a day count on a linear timeline. -/
abbrev Date := Int

/-- Python `float` values, modelled exactly on the rationals. -/
abbrev Value := Rat

/-- Python exceptions that the embedded code can raise. -/
inductive PyError where
  | keyError : String → PyError
  | valueError : String → PyError
  | typeError : String → PyError
  | attributeError : String → PyError
  | indexError : String → PyError
deriving Repr, DecidableEq

/-- Python f-string interpolation of an `Optional[str]`: `None` prints as
`"None"`. -/
def fmtOptS : Option String → String
  | none => "None"
  | some s => s

/-- Python `x or d` for an `Optional[str]` `x`: `None` and the empty string
are falsy. -/
def pyOr (x : Option String) (d : String) : String :=
  match x with
  | none => d
  | some s => if s = "" then d else s

/-- Python `str.split(sep)` for a one-character separator, by structural
recursion over the character list: `""` yields `[""]`, and separators at
the ends yield empty segments, exactly as in Python. -/
def splitChar (sep : Char) : List Char → List (List Char)
  | [] => [[]]
  | c :: cs =>
      if c = sep then [] :: splitChar sep cs
      else
        match splitChar sep cs with
        | [] => [[c]]
        | h :: t => (c :: h) :: t

/-- Python `s.split(":")` on a string. -/
def pySplitColon (s : String) : List String :=
  (splitChar ':' s.data).map (fun cs => String.mk cs)

/-- Python `s.split("/")` on a string. -/
def pySplitSlash (s : String) : List String :=
  (splitChar '/' s.data).map (fun cs => String.mk cs)

/-- Python `s.startswith(pre)`. -/
def pyStartswith (s pre : String) : Bool :=
  pre.data.isPrefixOf s.data

/-- Set-insertion on an insertion-ordered list: Python `set.add`. -/
def addUnique (l : List String) (x : String) : List String :=
  if x ∈ l then l else l ++ [x]

/-- Python `list(set(xs))` determinized to insertion order. -/
def pySet (xs : List String) : List String :=
  xs.foldl addUnique []

/-- `mapM` over `Except` by structural recursion (the evaluation loops of
the source, which stop at the first raised exception). -/
def mapMExcept {α β : Type} (f : α → Except PyError β) : List α → Except PyError (List β)
  | [] => .ok []
  | a :: l =>
      match f a with
      | .error e => .error e
      | .ok b =>
          match mapMExcept f l with
          | .error e => .error e
          | .ok bs => .ok (b :: bs)

/-! ## `config.py` — `ConfigManager`

`ConfigManager.get(key, default)` walks the dotted key through the nested
config dict and returns `default` when any component is absent.  The claims
only exercise integer-valued threshold keys, so the loaded configuration is
modelled at this interface as a partial map from dotted keys to integers. -/

/-- `ConfigManager` (config.py): dot-notation lookup over the loaded
configuration, modelled at the `get` interface. -/
structure ConfigManager where
  get? : String → Option Int

/-- `ConfigManager.get(key, default)`. -/
def ConfigManager.get (c : ConfigManager) (key : String) (default : Int) : Int :=
  (c.get? key).getD default

/-! ## `models.py` — patient facts -/

/-- `LabResult` (models.py). -/
structure LabResult where
  loinc : String
  value : Value
  unit : String
  date : Date
  source : String := "EHR"
deriving Repr, DecidableEq

/-- `Medication` (models.py). -/
structure Medication where
  rxnorm_code : String
  name : String
  start_date : Date
  end_date : Option Date := none
  failed : Bool := false
  contraindicated : Bool := false
deriving Repr, DecidableEq

/-- `Diagnosis` (models.py). -/
structure Diagnosis where
  icd10 : String
  mondo : String
  name : String
  onset_date : Option Date := none
deriving Repr, DecidableEq

/-- `VitalSigns` (models.py). -/
structure VitalSigns where
  systolic : Option Value := none
  diastolic : Option Value := none
  weight_kg : Option Value := none
  height_cm : Option Value := none
  date : Option Date := none
deriving Repr, DecidableEq

/-- `ValidationResult` (models.py). -/
structure ValidationResult where
  errors : List String := []
  warnings : List String := []
deriving Repr, DecidableEq

/-- `Patient` (models.py). -/
structure Patient where
  patient_id : String
  age : Int
  sex : String
  mrn : Option String := none
  diagnoses : List Diagnosis := []
  labs : List LabResult := []
  medications : List Medication := []
  vital_signs : Option VitalSigns := none
  pregnant : Bool := false
  breastfeeding : Bool := false
  smoking_status : Option String := none
  payer : Option String := none
  last_eye_exam : Option Date := none
  last_foot_exam : Option Date := none
  last_dental_exam : Option Date := none
  allergies : List String := []
  contraindications : List String := []
deriving Repr

/-- `Patient.bmi` (models.py).  Python truthiness: `not weight_kg` and
`not height_cm` are true for both `None` and `0.0`. -/
def Patient.bmi (p : Patient) : Option Value :=
  match p.vital_signs with
  | none => none
  | some vs =>
      match vs.weight_kg, vs.height_cm with
      | some w, some h =>
          if w = 0 then none
          else if h = 0 then none
          else if h ≤ 0 then none
          else
            let h_m := h / 100
            some (w / (h_m ^ 2))
      | _, _ => none

/-- `Patient.uses_insulin` (models.py). -/
def Patient.uses_insulin (p : Patient) : Bool :=
  let insulin_codes : List String := ["rxnorm:2618", "rxnorm:260265", "rxnorm:575802"]
  p.medications.any (fun m => insulin_codes.contains m.rxnorm_code)

/-- `Patient.diabetes_complications` (models.py). -/
def Patient.diabetes_complications (p : Patient) : Bool :=
  let complication_codes : List String :=
    ["E11.31", "E11.32", "E11.33", "E11.34", "E11.35", "E11.36", "E11.39"]
  p.diagnoses.any (fun d => complication_codes.contains d.icd10)

/-! ## `temporal.py` — `TemporalEngine`

The methods read `date.today()`; the evaluation date is passed explicitly
as `today`. -/

/-- `TemporalEngine.needs_annual_screening` (temporal.py). -/
def needs_annual_screening (config : ConfigManager) (today : Date)
    (last_date : Option Date) (screening_type : String) (patient : Patient) :
    Bool × Option String :=
  match last_date with
  | none => (true, some "Never performed")
  | some last =>
      let days_since := today - last
      let threshold :=
        config.get ("thresholds.annual_" ++ screening_type ++ "_days") 365
      let threshold :=
        if screening_type = "eye_exam" ∧ patient.diabetes_complications = true then
          180
        else threshold
      if days_since > threshold then
        (true, some ("Last performed " ++ toString days_since ++ " days ago"))
      else (false, none)

/-- `TemporalEngine.is_lab_current` (temporal.py). -/
def is_lab_current (config : ConfigManager) (today : Date)
    (lab : Option LabResult) (lab_type : String) : Bool × Option String :=
  match lab with
  | none => (false, some "No lab result")
  | some l =>
      let days_old := today - l.date
      let recency := config.get ("thresholds." ++ lab_type ++ "_recency_days") 90
      if days_old > recency then
        (false, some (toString days_old ++ " days old (max " ++ toString recency ++ ")"))
      else (true, none)

/-- `TemporalEngine.medication_duration` (temporal.py). -/
def medication_duration (today : Date) (medication : Medication) : Int :=
  let e := medication.end_date.getD today
  e - medication.start_date

/-! ## `ontology_service.py` — `OntologyService`

The `rdflib.Graph` behind the service is an external collaborator (spec §6);
its query primitives are modelled as opaque functions carried by the
structure.  A `rdflib.URIRef` is its URI string; `Namespace(base)[code]`
is string concatenation `base ++ code`. -/

/-- A graph node identifier (`rdflib.URIRef`), as its URI string. -/
abbrev URIRef := String

/-- `OntologyService` (ontology_service.py): the registered namespace map
`self.ns` plus the read-only graph's query primitives. -/
structure OntologyService where
  /-- `self.ns`: prefix → namespace base URI, e.g. `mondo ↦ http://purl.obolibrary.org/obo/MONDO_`. -/
  ns : List (String × String)
  /-- `graph.objects(uri, OWL.sameAs)`. -/
  sameAs : URIRef → List URIRef
  /-- `graph.objects(uri, SKOS.exactMatch)`. -/
  exactMatch : URIRef → List URIRef
  /-- the `ASK { ?child rdfs:subClassOf+ ?parent }` query of `is_a`. -/
  subClassOfTrans : URIRef → URIRef → Bool
  /-- `graph.query(q)` for a SPARQL SELECT: the returned node per row. -/
  queryRows : String → List URIRef

/-- `ns, code = curie.split(":")`: raises `ValueError` unless the split
yields exactly two parts. -/
def splitCurie (curie : String) : Except PyError (String × String) :=
  match pySplitColon curie with
  | [pfx, code] => .ok (pfx, code)
  | _ => .error (.valueError "unpack")

/-- `self.ns[ns]`: raises `KeyError` when the prefix is not registered. -/
def OntologyService.nsLookup (o : OntologyService) (pfx : String) :
    Except PyError String :=
  match o.ns.lookup pfx with
  | some base => .ok base
  | none => .error (.keyError pfx)

/-- `OntologyService.equivalent` (ontology_service.py): the input node
plus its one-hop `owl:sameAs` / `skos:exactMatch` neighbours.  The Python
`set` is determinized to an insertion-ordered duplicate-free list. -/
def OntologyService.equivalent (o : OntologyService) (curie : String) :
    Except PyError (List URIRef) :=
  match splitCurie curie with
  | .error e => .error e
  | .ok (pfx, code) =>
      match o.nsLookup pfx with
      | .error e => .error e
      | .ok base =>
          let uri := base ++ code
          .ok ((o.sameAs uri ++ o.exactMatch uri).foldl addUnique [uri])

/-- `OntologyService.resolve_code` (ontology_service.py): expand the CURIE
(`self.ns[ns][code]`, raising on an unknown prefix) and return
`self.equivalent(curie)[0]`. -/
def OntologyService.resolve_code (o : OntologyService) (curie : String) :
    Except PyError URIRef :=
  match splitCurie curie with
  | .error e => .error e
  | .ok (pfx, code) =>
      match o.nsLookup pfx with
      | .error e => .error e
      | .ok base =>
          let _uri := base ++ code
          match o.equivalent curie with
          | .error e => .error e
          | .ok [] => .error (.indexError "list index out of range")
          | .ok (x :: _) => .ok x

/-- `OntologyService.is_a` (ontology_service.py): transitive subclass
reasoning, delegated to the graph's ASK query. -/
def OntologyService.is_a (o : OntologyService) (child parent : URIRef) : Bool :=
  o.subClassOfTrans child parent

/-- `str(uri).split("/")[-1]`: the last slash-separated component
(`str.split` never yields an empty list, so indexing `[-1]` cannot fail). -/
def lastSlashComponent (uri : String) : String :=
  ((pySplitSlash uri).getLast?).getD uri

/-! ## `rule_registry.py` — conditions, rules and the registry -/

/-- `ConditionSource` (rule_registry.py). -/
inductive ConditionSource where
  | curie
  | query
deriving Repr, DecidableEq

/-- `ClinicalCondition` (rule_registry.py); the unused `metadata` dict is
omitted. -/
structure ClinicalCondition where
  type : String
  code : Option String := none
  operator : String := "exists"
  value : Option Value := none
  source : ConditionSource := .curie
  query : Option String := none
deriving Repr

/-- `ClinicalRule` (rule_registry.py).  The `ontology` attribute the
registry injects after construction is passed explicitly to evaluation. -/
structure ClinicalRule where
  rule_id : String
  name : String
  description : String
  intervention : String
  conditions : List ClinicalCondition
  action : String
  guideline_ref : String
  evidence_level : String
  source : String
  effective_date : Date
  expiration_date : Option Date := none
  payer_specific : Option (List String) := none
deriving Repr

/-- Python `any(f(x) for x in l)` where `f` may raise: short-circuits at
the first `true`, raises at the first exception reached. -/
def anyMExcept {α : Type} (f : α → Except PyError Bool) : List α → Except PyError Bool
  | [] => .ok false
  | a :: l =>
      match f a with
      | .error e => .error e
      | .ok b => if b then .ok true else anyMExcept f l

/-- The `condition.type == "diagnosis"` branch of
`ClinicalRule._evaluate_condition`.  `condition.code = None` raises
(`None.split`); all patient codes are resolved eagerly (set
comprehensions), and truthiness skips empty code strings. -/
def evalDiagnosisCondition (o : OntologyService) (condition : ClinicalCondition)
    (patient : Patient) : Except PyError (Bool × String) := do
  let code ←
    match condition.code with
    | some s => Except.ok s
    | none => Except.error (.attributeError "NoneType has no attribute split")
  let target ← o.resolve_code code
  let mondoCodes := (patient.diagnoses.filter (fun d => d.mondo != "")).map (fun d => d.mondo)
  let icdCodes := (patient.diagnoses.filter (fun d => d.icd10 != "")).map (fun d => d.icd10)
  let patient_uris ← mapMExcept o.resolve_code (mondoCodes ++ icdCodes)
  let mtch := patient_uris.any (fun p_uri => o.is_a p_uri target)
  pure ((if condition.operator = "exists" then mtch else !mtch),
    "Diagnosis " ++ fmtOptS condition.code)

/-- The lab-locating step of the `"lab"` branch: first patient lab whose
code matches the rule's code (CURIE source) or any code returned by the
rule's graph query (query source; a missing query string raises). -/
def findLab (o : OntologyService) (patient : Patient)
    (condition : ClinicalCondition) : Except PyError (Option LabResult) :=
  match condition.source with
  | .curie => .ok (patient.labs.find? (fun l => condition.code == some l.loinc))
  | .query =>
      match condition.query with
      | none => .error (.typeError "query of NoneType")
      | some q =>
          let labs_curie := (o.queryRows q).map lastSlashComponent
          .ok (patient.labs.find? (fun l => labs_curie.contains l.loinc))

/-- The operator dispatch of the `"lab"` branch once the lab is current:
`>=` / `<=` compare `lab.value` against `condition.value` (a missing value
raises, as does a missing lab); any other operator falls through
(`none`). -/
def labOperatorStep (condition : ClinicalCondition) (lab : Option LabResult) :
    Except PyError (Option (Bool × String)) :=
  if condition.operator = ">=" then
    match lab with
    | none => .error (.attributeError "NoneType has no attribute value")
    | some l =>
        match condition.value with
        | none => .error (.typeError "not supported between float and NoneType")
        | some v => .ok (some (decide (l.value ≥ v), l.loinc ++ " >= " ++ toString v))
  else if condition.operator = "<=" then
    match lab with
    | none => .error (.attributeError "NoneType has no attribute value")
    | some l =>
        match condition.value with
        | none => .error (.typeError "not supported between float and NoneType")
        | some v => .ok (some (decide (l.value ≤ v), l.loinc ++ " <= " ++ toString v))
  else .ok none

/-- The `condition.type == "lab"` branch of `_evaluate_condition` after
the lab has been located: the temporal currency gate (an out-of-date or
missing lab returns unmet with the temporal reason), then the operator
dispatch.  `none` means the branch fell through without returning. -/
def evalLabConditionFound (config : ConfigManager) (today : Date)
    (condition : ClinicalCondition) (lab : Option LabResult) :
    Except PyError (Option (Bool × String)) :=
  match is_lab_current config today lab "lab" with
  | (false, reason) =>
      .ok (some (false, "Lab " ++ pyOr condition.code "query" ++ ": " ++ fmtOptS reason))
  | (true, _) => labOperatorStep condition lab

def evalLabCondition (o : OntologyService) (config : ConfigManager) (today : Date)
    (condition : ClinicalCondition) (patient : Patient) :
    Except PyError (Option (Bool × String)) :=
  match findLab o patient condition with
  | .error e => .error e
  | .ok lab => evalLabConditionFound config today condition lab

/-- The `condition.type == "medication"` branch of `_evaluate_condition`.
The CURIE path resolves each medication code inside a short-circuiting
`any`; the query path matches codes textually. -/
def evalMedicationCondition (o : OntologyService) (condition : ClinicalCondition)
    (patient : Patient) : Except PyError (Bool × String) := do
  let has ←
    match condition.source with
    | .curie => do
        let code ←
          match condition.code with
          | some s => Except.ok s
          | none => Except.error (.attributeError "NoneType has no attribute split")
        let target ← o.resolve_code code
        anyMExcept
          (fun m => do
            let u ← o.resolve_code m.rxnorm_code
            pure (o.is_a u target))
          patient.medications
    | .query =>
        match condition.query with
        | none => Except.error (.typeError "query of NoneType")
        | some q =>
            let meds_curie := (o.queryRows q).map lastSlashComponent
            Except.ok (patient.medications.any (fun m => meds_curie.contains m.rxnorm_code))
  pure ((if condition.operator = "exists" then has else !has),
    "Medication " ++ pyOr condition.code "query")

/-- The `condition.code == "age"` sub-dispatch of the `"demographic"`
branch: `>=` / `<=` compare the patient's age against `condition.value`
(a missing threshold raises); any other operator falls through. -/
def demographicAgeStep (condition : ClinicalCondition) (patient : Patient) :
    Except PyError (Option (Bool × String)) :=
  if condition.operator = ">=" then
    match condition.value with
    | none => .error (.typeError "not supported between int and NoneType")
    | some v => .ok (some (decide ((patient.age : Rat) ≥ v), "Age >= " ++ toString v))
  else if condition.operator = "<=" then
    match condition.value with
    | none => .error (.typeError "not supported between int and NoneType")
    | some v => .ok (some (decide ((patient.age : Rat) ≤ v), "Age <= " ++ toString v))
  else .ok none

/-- The `condition.type == "demographic"` branch of `_evaluate_condition`:
code `"age"` compares numerically, code `"pregnancy"` compares the flag;
anything else falls through (`none`). -/
def evalDemographicStep (condition : ClinicalCondition) (patient : Patient) :
    Except PyError (Option (Bool × String)) :=
  match (if condition.code = some "age" then demographicAgeStep condition patient
         else .ok none) with
  | .error e => .error e
  | .ok (some r) => .ok (some r)
  | .ok none =>
      if condition.code = some "pregnancy" then
        .ok (some ((if condition.operator = "not_exists" then !patient.pregnant else patient.pregnant),
          "Pregnancy status"))
      else .ok none

/-- `ClinicalRule._evaluate_condition` (rule_registry.py): sequential
dispatch on `condition.type`; a combination that reaches no `return`
falls through to `(False, "Condition type not implemented")`. -/
def evaluateCondition (o : OntologyService) (config : ConfigManager) (today : Date)
    (condition : ClinicalCondition) (patient : Patient) :
    Except PyError (Bool × String) :=
  if condition.type = "diagnosis" then
    evalDiagnosisCondition o condition patient
  else
    match (if condition.type = "lab" then evalLabCondition o config today condition patient
           else .ok none) with
    | .error e => .error e
    | .ok (some r) => .ok r
    | .ok none =>
        if condition.type = "medication" then
          evalMedicationCondition o condition patient
        else
          match (if condition.type = "demographic" then evalDemographicStep condition patient
                 else .ok none) with
          | .error e => .error e
          | .ok (some r) => .ok r
          | .ok none =>
              if condition.type = "diagnosis_generic" ∧
                  condition.code = some "diabetes" ∧ condition.operator = "exists" then
                .ok (patient.diagnoses.any (fun d => pyStartswith d.mondo "MONDO:000514"),
                  "Has diabetes")
              else
                .ok (false, "Condition type not implemented")

/-- `ClinicalRule.evaluate` (rule_registry.py): evaluate every condition
in order, partition the reasons into met / unmet, and return
`(len(unmet) == 0, met, unmet)`. -/
def ClinicalRule.evaluate (rule : ClinicalRule) (o : OntologyService)
    (config : ConfigManager) (today : Date) (patient : Patient) :
    Except PyError (Bool × List String × List String) :=
  match mapMExcept
      (fun cond => evaluateCondition o config today cond patient) rule.conditions with
  | .error e => .error e
  | .ok results =>
      let met := (results.filter (fun r => r.1)).map (fun r => r.2)
      let unmet := (results.filter (fun r => !r.1)).map (fun r => r.2)
      .ok (unmet.length == 0, met, unmet)

/-- The per-rule record stored by `RuleRegistry.evaluate_all`. -/
structure RuleOutcome where
  eligible : Bool
  intervention : String
  met_conditions : List String
  unmet_conditions : List String
  guideline_ref : String
  evidence_level : String
  action : String
deriving Repr, DecidableEq

/-- `if rule.payer_specific and patient.payer not in rule.payer_specific`:
an empty allow-list is falsy in Python and does not trigger a skip; an
absent patient payer is never a member of a string list. -/
def payerSkip (rule : ClinicalRule) (patient : Patient) : Bool :=
  match rule.payer_specific with
  | none => false
  | some l =>
      !l.isEmpty &&
        !(match patient.payer with
          | none => false
          | some s => l.contains s)

/-- `if rule.expiration_date and rule.expiration_date < date.today()`:
a `date` object is always truthy. -/
def expirySkip (rule : ClinicalRule) (today : Date) : Bool :=
  match rule.expiration_date with
  | none => false
  | some d => decide (d < today)

/-- The loop body of `RuleRegistry.evaluate_all` for one non-skipped
rule. -/
def evalOneRule (o : OntologyService) (config : ConfigManager) (today : Date)
    (patient : Patient) (rule : ClinicalRule) :
    Except PyError (String × RuleOutcome) :=
  match rule.evaluate o config today patient with
  | .error e => .error e
  | .ok (eligible, met, unmet) =>
      .ok (rule.rule_id,
        { eligible := eligible, intervention := rule.intervention,
          met_conditions := met, unmet_conditions := unmet,
          guideline_ref := rule.guideline_ref,
          evidence_level := rule.evidence_level, action := rule.action })

/-- `RuleRegistry.evaluate_all` (rule_registry.py): evaluate every rule
that is not skipped by the payer allow-list or expiration checks, keyed by
rule id (the registry's `rules` dict is the `rules` list here, insertion
ordered with unique ids). -/
def evaluate_all (rules : List ClinicalRule) (o : OntologyService)
    (config : ConfigManager) (today : Date) (patient : Patient) :
    Except PyError (List (String × RuleOutcome)) :=
  mapMExcept (evalOneRule o config today patient)
    (rules.filter (fun r => !payerSkip r patient && !expirySkip r today))

/-! ## `engine.py` — aggregation, validation, care gaps, engine facade -/

/-- The per-intervention accumulator dict built by
`EnhancedADAReasoningEngine._aggregate_eligibility`; the Python `set`
fields are insertion-ordered duplicate-free lists. -/
structure GroupData where
  eligible_rules : List String := []
  ineligible_rules : List String := []
  guideline_refs : List String := []
  evidence_levels : List String := []
  met : List String := []
  unmet : List String := []
deriving Repr, DecidableEq

/-- Folding one rule outcome into its intervention's accumulator. -/
def GroupData.addOutcome (data : GroupData) (rid : String) (r : RuleOutcome) :
    GroupData :=
  { eligible_rules := if r.eligible then data.eligible_rules ++ [rid] else data.eligible_rules
    ineligible_rules := if r.eligible then data.ineligible_rules else data.ineligible_rules ++ [rid]
    guideline_refs := addUnique data.guideline_refs r.guideline_ref
    evidence_levels := addUnique data.evidence_levels r.evidence_level
    met := data.met ++ r.met_conditions
    unmet := data.unmet ++ r.unmet_conditions }

/-- Insertion-ordered dict update: modify the entry at `k` (Python
`by_int[intr]`), creating it from `init` on first touch. -/
def updateAssoc (l : List (String × GroupData)) (k : String)
    (f : GroupData → GroupData) : List (String × GroupData) :=
  match l with
  | [] => [(k, f {})]
  | (k', v) :: rest =>
      if k' = k then (k', f v) :: rest else (k', v) :: updateAssoc rest k f

/-- The grouping loop of `_aggregate_eligibility`: rule outcomes bucketed
by intervention, in first-seen order. -/
def groupByIntervention (rule_results : List (String × RuleOutcome)) :
    List (String × GroupData) :=
  rule_results.foldl
    (fun acc rr => updateAssoc acc rr.2.intervention (fun d => d.addOutcome rr.1 rr.2))
    []

/-- The strength calculation of `_aggregate_eligibility`: the evidence-A
promotion is only reached when the group already has an eligible rule. -/
def strengthOf (data : GroupData) : String :=
  if data.eligible_rules.length > 0 then
    if data.eligible_rules.length ≥ 2 then "strong"
    else if data.evidence_levels.contains "A" then "strong"
    else "moderate"
  else "weak"

/-- `EnhancedEligibilityResult` (engine.py). -/
structure EnhancedEligibilityResult where
  eligible : Bool
  strength : String
  recommendations : List String
  contraindications : List String
  missing_data : List String
  guideline_references : List String
  evidence_levels : List String
  payer_coverage_notes : List String
  prior_auth_required : Bool
  estimated_coverage : String
deriving Repr, DecidableEq

/-- `EnhancedADAReasoningEngine._check_contraindications` (engine.py). -/
def check_contraindications (patient : Patient) (intervention : String) :
    List String :=
  (if intervention = "GLP1" then
    (if patient.pregnant then ["Pregnancy"] else []) ++
      (if patient.contraindications.contains "pancreatitis" then
        ["History of pancreatitis"] else [])
   else []) ++
  (if intervention = "SGLT2" then
    (if patient.diagnoses.any (fun d => d.name.toLower = "esrd") then
      ["End-stage renal disease"] else [])
   else [])

/-- `EnhancedADAReasoningEngine._estimate_coverage` (engine.py): the
annotated `Optional[str]` is in fact always a string (`"unknown"` is the
fallback); Python truthiness treats an empty payer string as absent. -/
def estimate_coverage (patient : Patient) (intervention : String) : String :=
  match patient.payer with
  | none => "unknown"
  | some payer =>
      if payer = "" then "unknown"
      else if payer = "medicare" then
        if intervention = "GLP1" then "likely"
        else if intervention = "SGLT2" then "likely"
        else if intervention = "CGM" then
          (if patient.uses_insulin then "likely" else "unlikely")
        else "unknown"
      else if payer = "medicaid" then
        if intervention = "GLP1" then "unlikely"
        else if intervention = "SGLT2" then "likely"
        else if intervention = "CGM" then "unlikely"
        else "unknown"
      else if payer = "commercial" then
        if intervention = "GLP1" then "likely"
        else if intervention = "SGLT2" then "likely"
        else if intervention = "CGM" then
          (if patient.uses_insulin then "likely" else "unlikely")
        else "unknown"
      else "unknown"

/-- The per-group result construction of `_aggregate_eligibility`. -/
def buildEligibilityResult (patient : Patient) (intr : String)
    (data : GroupData) : EnhancedEligibilityResult :=
  let eligible := data.eligible_rules.length > 0
  let strength := strengthOf data
  let medicareCGM :=
    decide (patient.payer = some "medicare" ∧ intr = "CGM" ∧ patient.age ≥ 65)
  { eligible := eligible
    strength := strength
    recommendations := pySet data.met
    contraindications := check_contraindications patient intr
    missing_data := pySet data.unmet
    guideline_references := data.guideline_refs
    evidence_levels := data.evidence_levels
    payer_coverage_notes :=
      if medicareCGM then ["Medicare covers CGM for age >=65"] else []
    prior_auth_required := medicareCGM
    estimated_coverage := estimate_coverage patient intr }

/-- `EnhancedADAReasoningEngine._aggregate_eligibility` (engine.py). -/
def aggregate_eligibility (patient : Patient)
    (rule_results : List (String × RuleOutcome)) :
    List (String × EnhancedEligibilityResult) :=
  (groupByIntervention rule_results).map
    (fun g => (g.1, buildEligibilityResult patient g.1 g.2))

/-- `EnhancedADAReasoningEngine._validate_patient_data` (engine.py). -/
def validate_patient_data (config : ConfigManager) (today : Date)
    (patient : Patient) : ValidationResult :=
  let diagErrors := if patient.diagnoses.isEmpty then ["No diagnoses recorded"] else []
  let hba1c := patient.labs.find? (fun l => l.loinc = "LOINC:4548-4")
  let labErrors :=
    match is_lab_current config today hba1c "hba1c" with
    | (false, reason) => ["HbA1c: " ++ fmtOptS reason]
    | (true, _) => []
  let warnings := if patient.pregnant && patient.age > 55 then ["Pregnant age > 55"] else []
  let medErrors :=
    (patient.medications.filter (fun m => m.contraindicated)).map
      (fun m => "Contraindicated medication: " ++ m.name)
  { errors := diagErrors ++ labErrors ++ medErrors, warnings := warnings }

/-- One care-gap entry (the `{name, ada_section, action}` dicts of
`_identify_care_gaps`). -/
structure CareGap where
  name : String
  ada_section : String
  action : String
deriving Repr, DecidableEq

/-- `EnhancedADAReasoningEngine._identify_care_gaps` (engine.py). -/
def identify_care_gaps (config : ConfigManager) (today : Date)
    (patient : Patient) : List CareGap :=
  let screenings : List (String × String × String × Option Date) :=
    [("eye_exam", "Eye Exam", "12", patient.last_eye_exam),
     ("foot_exam", "Foot Exam", "12", patient.last_foot_exam),
     ("dental_exam", "Dental Exam", "4", patient.last_dental_exam)]
  let screenGaps := screenings.filterMap
    (fun s =>
      match needs_annual_screening config today s.2.2.2 s.1 patient with
      | (true, reason) => some ⟨s.2.1, s.2.2.1, fmtOptS reason⟩
      | (false, _) => none)
  let hba1c := patient.labs.find? (fun l => l.loinc = "LOINC:4548-4")
  let hba1cGaps :=
    match hba1c with
    | some _ =>
        match is_lab_current config today hba1c "hba1c" with
        | (false, reason) => [⟨"HbA1c Monitoring", "6", fmtOptS reason⟩]
        | (true, _) => []
    | none => [⟨"HbA1c Monitoring", "6", "No result"⟩]
  let hasDiabetes := patient.diagnoses.any (fun d => pyStartswith d.mondo "MONDO:000514")
  let cvGaps :=
    if hasDiabetes && patient.age ≥ 40 then
      [⟨"CV Risk Assessment", "10", "Consider statin therapy"⟩]
    else []
  let ckdGaps :=
    if hasDiabetes then
      let egfr := patient.labs.find? (fun l => l.loinc = "LOINC:48643-1")
      let uacr := patient.labs.find? (fun l => l.loinc = "LOINC:9318-7")
      if egfr.isSome && uacr.isSome then []
      else [⟨"CKD Screening", "11", "Order eGFR & UACR"⟩]
    else []
  screenGaps ++ hba1cGaps ++ cvGaps ++ ckdGaps

/-! ### `audit.py` and the engine facade

`AuditLogger` is in-memory state mutated by `log_evaluation`; the returned
trail id is the entry's wall-clock timestamp, modelled by a monotone
counter in the engine state. -/

/-- The fields `AuditLogger.log_evaluation` (audit.py) stores per entry. -/
structure AuditEntry where
  tick : Nat
  patient_id : String
  clinician_id : Option String
  action : String
  diagnoses_names : List String
  labs_count : Nat
  medications_count : Nat
  rules_evaluated : List String
  payer : Option String
deriving Repr, DecidableEq

/-- The mutable state of `EnhancedADAReasoningEngine`: configuration,
rule set, ontology and clinician id (fixed after construction), the audit
log, and a clock surrogate for `datetime.utcnow()`. -/
structure EngineState where
  config : ConfigManager
  rules : List ClinicalRule
  ontology : OntologyService
  clinician_id : Option String
  audit_entries : List AuditEntry
  clock : Nat

/-- `AuditLogger.log_evaluation` (audit.py): append an entry and return
its timestamp as the trail id. -/
def logEvaluation (st : EngineState) (patient : Patient)
    (rule_results : List (String × RuleOutcome)) : String × EngineState :=
  let entry : AuditEntry :=
    { tick := st.clock
      patient_id := patient.patient_id
      clinician_id := st.clinician_id
      action := "clinical_evaluation"
      diagnoses_names := patient.diagnoses.map (fun d => d.name)
      labs_count := patient.labs.length
      medications_count := patient.medications.length
      rules_evaluated := rule_results.map (fun r => r.1)
      payer := patient.payer }
  (toString st.clock,
   { st with audit_entries := st.audit_entries ++ [entry], clock := st.clock + 1 })

/-- `EnhancedEngineOutput` (engine.py), without the response timestamp. -/
structure EngineOutput where
  validation : ValidationResult
  eligibility : List (String × EnhancedEligibilityResult)
  care_gaps : List CareGap
  rule_evaluations : List (String × RuleOutcome)
  audit_trail_id : String
deriving Repr

/-- `EnhancedADAReasoningEngine.evaluate` (engine.py): validation, rule
evaluation, aggregation, care gaps, audit logging.  Returns the output
together with the post-call engine state. -/
def engineEvaluate (st : EngineState) (today : Date) (patient : Patient) :
    Except PyError (EngineOutput × EngineState) :=
  let validation := validate_patient_data st.config today patient
  match evaluate_all st.rules st.ontology st.config today patient with
  | .error e => .error e
  | .ok rule_results =>
      let eligibility := aggregate_eligibility patient rule_results
      let care_gaps := identify_care_gaps st.config today patient
      let (audit_id, st') := logEvaluation st patient rule_results
      .ok ({ validation := validation
             eligibility := eligibility
             care_gaps := care_gaps
             rule_evaluations := rule_results
             audit_trail_id := audit_id }, st')

/-! ## Concrete fixtures for witnesses and counterexamples -/

/-- An empty configuration: every threshold lookup falls back to its
default. -/
def cfgEmpty : ConfigManager := ⟨fun _ => none⟩

/-- A configuration that explicitly sets the annual eye-exam threshold to
365, to exercise the hard-coded complication override. -/
def cfgEye365 : ConfigManager :=
  ⟨fun k => if k = "thresholds.annual_eye_exam_days" then some 365 else none⟩

/-- An ontology with the `mondo` prefix registered and an otherwise empty
graph. -/
def ontoTrivial : OntologyService :=
  { ns := [("mondo", "http://purl.obolibrary.org/obo/MONDO_")]
    sameAs := fun _ => []
    exactMatch := fun _ => []
    subClassOfTrans := fun _ _ => false
    queryRows := fun _ => [] }

/-- A minimal patient record. -/
def patient0 : Patient := { patient_id := "P0", age := 50, sex := "F" }

/-! ## Shared lemmas -/

/-- A successful `mapMExcept` run produces one result per input. -/
theorem mapMExcept_ok_length {α β : Type} (f : α → Except PyError β) :
    ∀ (l : List α) (res : List β), mapMExcept f l = .ok res → res.length = l.length := by
  intro l
  induction l with
  | nil =>
      intro res h
      simp only [mapMExcept, Except.ok.injEq] at h
      simp [← h]
  | cons a l ih =>
      intro res h
      simp only [mapMExcept] at h
      cases hf : f a with
      | error e => rw [hf] at h; exact absurd h (by simp)
      | ok b =>
          rw [hf] at h
          cases hm : mapMExcept f l with
          | error e => rw [hm] at h; exact absurd h (by simp)
          | ok bs =>
              rw [hm] at h
              simp only [Except.ok.injEq] at h
              simp [← h, ih bs hm]

/-- A successful `mapMExcept` run maps inputs to outputs positionally:
any projection `g` of the outputs that is determined by a projection `h`
of the inputs is preserved. -/
theorem mapMExcept_ok_map {α β γ : Type} (f : α → Except PyError β)
    (g : β → γ) (h : α → γ) (hfg : ∀ a b, f a = .ok b → g b = h a) :
    ∀ (l : List α) (res : List β), mapMExcept f l = .ok res →
      res.map g = l.map h := by
  intro l
  induction l with
  | nil =>
      intro res hres
      simp only [mapMExcept, Except.ok.injEq] at hres
      simp [← hres]
  | cons a l ih =>
      intro res hres
      simp only [mapMExcept] at hres
      cases hf : f a with
      | error e => rw [hf] at hres; exact absurd hres (by simp)
      | ok b =>
          rw [hf] at hres
          cases hm : mapMExcept f l with
          | error e => rw [hm] at hres; exact absurd hres (by simp)
          | ok bs =>
              rw [hm] at hres
              simp only [Except.ok.injEq] at hres
              simp [← hres, hfg a b hf, ih bs hm]

/-- Splitting a list by a predicate preserves the total length. -/
theorem length_filter_add_length_filter_not {α : Type} (p : α → Bool) (l : List α) :
    (l.filter p).length + (l.filter (fun x => !p x)).length = l.length := by
  induction l with
  | nil => simp
  | cons a l ih =>
      by_cases h : p a = true <;>
        simp [List.filter_cons, h, ih] <;> omega

/-- Folding `addUnique` over a nonempty accumulator keeps its head. -/
theorem foldl_addUnique_cons (l : List String) (a : String) :
    ∀ acc, ∃ t, l.foldl addUnique (a :: acc) = a :: t := by
  induction l with
  | nil => intro acc; exact ⟨acc, rfl⟩
  | cons x xs ih =>
      intro acc
      simp only [List.foldl]
      by_cases hx : x ∈ a :: acc
      · rw [show addUnique (a :: acc) x = a :: acc from by simp [addUnique, hx]]
        exact ih acc
      · rw [show addUnique (a :: acc) x = a :: (acc ++ [x]) from by
          simp [addUnique, hx]]
        exact ih (acc ++ [x])

/-! ## Claims -/

/-- C1: for every rule and patient, `ClinicalRule.evaluate` evaluates
every condition of the rule (one result per condition, no
short-circuiting), returns `allMet = true` iff the unmet reason list is
empty, and the met and unmet reason lists together have exactly one entry
per condition. -/
theorem C1_evaluate_conjunctive_completeness
    (rule : ClinicalRule) (o : OntologyService) (config : ConfigManager)
    (today : Date) (patient : Patient)
    (allMet : Bool) (met unmet : List String)
    (h : rule.evaluate o config today patient = .ok (allMet, met, unmet)) :
    (allMet = true ↔ unmet = []) ∧
      met.length + unmet.length = rule.conditions.length := by
  unfold ClinicalRule.evaluate at h
  cases hm : mapMExcept
      (fun cond => evaluateCondition o config today cond patient) rule.conditions with
  | error e => rw [hm] at h; exact absurd h (by simp)
  | ok results =>
      rw [hm] at h
      simp only [Except.ok.injEq, Prod.mk.injEq] at h
      obtain ⟨ha, hmet, hunmet⟩ := h
      constructor
      · rw [← ha, ← hunmet]
        simp [List.length_eq_zero]
      · rw [← hmet, ← hunmet]
        rw [List.length_map, List.length_map,
          length_filter_add_length_filter_not]
        exact mapMExcept_ok_length _ _ _ hm

/-- A rule whose two conditions both have an unrecognized kind. -/
def ruleTwoUnknown : ClinicalRule :=
  { rule_id := "RZ", name := "z", description := "z", intervention := "Z"
    conditions := [{ type := "zzz" }, { type := "zzz" }]
    action := "recommend", guideline_ref := "g", evidence_level := "B"
    source := "ada", effective_date := 0 }

/-- C1 witness: the theorem applied to a concrete two-condition rule. -/
theorem C1_evaluate_conjunctive_completeness_witness :
    ((false : Bool) = true ↔
        (["Condition type not implemented", "Condition type not implemented"] : List String) = []) ∧
      ([] : List String).length +
          (["Condition type not implemented", "Condition type not implemented"] : List String).length =
        ruleTwoUnknown.conditions.length :=
  C1_evaluate_conjunctive_completeness ruleTwoUnknown ontoTrivial cfgEmpty 0 patient0
    false [] ["Condition type not implemented", "Condition type not implemented"] (by rfl)

/-- C2 (amended): for every condition whose kind is not one of the five
handled kinds, condition evaluation returns unmet with the reason
"Condition type not implemented" — never met, and never an exception.
(For handled kinds an unrecognized operator is not fail-closed: see the
counterexample.) -/
theorem C2_unknown_kind_fails_closed
    (o : OntologyService) (config : ConfigManager) (today : Date)
    (condition : ClinicalCondition) (patient : Patient)
    (h1 : condition.type ≠ "diagnosis") (h2 : condition.type ≠ "lab")
    (h3 : condition.type ≠ "medication") (h4 : condition.type ≠ "demographic")
    (h5 : condition.type ≠ "diagnosis_generic") :
    evaluateCondition o config today condition patient =
      .ok (false, "Condition type not implemented") := by
  unfold evaluateCondition
  simp [h1, h2, h3, h4, h5]

/-- C2 witness: a condition of the unrecognized kind "frobnicate". -/
theorem C2_unknown_kind_fails_closed_witness :
    evaluateCondition ontoTrivial cfgEmpty 0 { type := "frobnicate" } patient0 =
      .ok (false, "Condition type not implemented") :=
  C2_unknown_kind_fails_closed ontoTrivial cfgEmpty 0 { type := "frobnicate" } patient0
    (by decide) (by decide) (by decide) (by decide) (by decide)

/-- A diagnosis condition with the unrecognized operator "banana". -/
def condBananaOp : ClinicalCondition :=
  { type := "diagnosis", code := some "mondo:0005148", operator := "banana" }

/-- C2 counterexample: the kind/operator combination
(diagnosis, "banana") is not one of the handled ones, yet evaluating it
against a patient with no diagnoses yields MET (the code treats every
operator other than "exists" as negation), contradicting both the
"always unmet" and the reason text of the claim. -/
theorem C2_unknown_operator_yields_met_counterexample :
    condBananaOp.operator = "banana" ∧
      evaluateCondition ontoTrivial cfgEmpty 0 condBananaOp patient0 =
        .ok (true, "Diagnosis mondo:0005148") :=
  ⟨rfl, by rfl⟩

/-- C3: for every lab condition with operator `>=` or `<=`, a located lab
that is missing or stale makes the condition unmet with the temporal
reason (regardless of the lab's value), and the value comparison is
performed exactly when the lab passes the currency check. -/
theorem C3_temporal_gating_of_lab_conditions
    (o : OntologyService) (config : ConfigManager) (today : Date)
    (condition : ClinicalCondition) (patient : Patient) (lab : Option LabResult)
    (htype : condition.type = "lab")
    (hop : condition.operator = ">=" ∨ condition.operator = "<=")
    (hfind : findLab o patient condition = .ok lab) :
    (∀ reason, is_lab_current config today lab "lab" = (false, some reason) →
        evaluateCondition o config today condition patient =
          .ok (false, "Lab " ++ pyOr condition.code "query" ++ ": " ++ reason)) ∧
      (∀ l v, is_lab_current config today lab "lab" = (true, none) →
          lab = some l → condition.value = some v →
          evaluateCondition o config today condition patient =
            .ok (if condition.operator = ">=" then
                   (decide (l.value ≥ v), l.loinc ++ " >= " ++ toString v)
                 else (decide (l.value ≤ v), l.loinc ++ " <= " ++ toString v))) := by
  have hd : condition.type ≠ "diagnosis" := by rw [htype]; decide
  constructor
  · intro reason hcur
    have hlab : evalLabCondition o config today condition patient =
        .ok (some (false, "Lab " ++ pyOr condition.code "query" ++ ": " ++ reason)) := by
      simp only [evalLabCondition, hfind, evalLabConditionFound, hcur, fmtOptS]
    unfold evaluateCondition
    simp [hd, htype, hlab]
  · intro l v hcur hl hv
    subst hl
    have hstep : labOperatorStep condition (some l) =
        .ok (some (if condition.operator = ">=" then
            (decide (l.value ≥ v), l.loinc ++ " >= " ++ toString v)
          else (decide (l.value ≤ v), l.loinc ++ " <= " ++ toString v))) := by
      rcases hop with hge | hle
      · unfold labOperatorStep
        rw [if_pos hge, hv, if_pos hge]
      · have hne : ¬ condition.operator = ">=" := by rw [hle]; decide
        unfold labOperatorStep
        rw [if_neg hne, if_pos hle, hv, if_neg hne]
    have hlab : evalLabCondition o config today condition patient =
        .ok (some (if condition.operator = ">=" then
            (decide (l.value ≥ v), l.loinc ++ " >= " ++ toString v)
          else (decide (l.value ≤ v), l.loinc ++ " <= " ++ toString v))) := by
      simp only [evalLabCondition, hfind, evalLabConditionFound, hcur, hstep]
    unfold evaluateCondition
    simp [hd, htype, hlab]

/-- A lab condition `HbA1c >= 9` (CURIE source). -/
def condHbA1c : ClinicalCondition :=
  { type := "lab", code := some "LOINC:4548-4", operator := ">=", value := some 9 }

/-- A patient whose HbA1c of 10 % (satisfying the threshold) was measured
100 days before evaluation — past the default 90-day recency window. -/
def patientStaleHbA1c : Patient :=
  { patient0 with labs := [{ loinc := "LOINC:4548-4", value := 10, unit := "%", date := 0 }] }

/-- C3 witness: the stale-but-satisfying lab is unmet with the temporal
staleness reason, not a numeric-comparison reason. -/
theorem C3_temporal_gating_of_lab_conditions_witness :
    evaluateCondition ontoTrivial cfgEmpty 100 condHbA1c patientStaleHbA1c =
      .ok (false, "Lab " ++ pyOr condHbA1c.code "query" ++ ": " ++ "100 days old (max 90)") :=
  (C3_temporal_gating_of_lab_conditions ontoTrivial cfgEmpty 100 condHbA1c
      patientStaleHbA1c (some { loinc := "LOINC:4548-4", value := 10, unit := "%", date := 0 })
      rfl (Or.inl rfl) (by rfl)).1
    "100 days old (max 90)" (by rfl)

/-- The strength rule as the claim words it (C4): "strong" already when
any evaluated rule of the group carries evidence level "A", even with no
eligible rule.  Used only to exhibit the divergence from the code. -/
def strengthPerClaimC4 (eligibleCount : Nat) (levels : List String) : String :=
  if 2 ≤ eligibleCount ∨ levels.contains "A" then "strong"
  else if 1 ≤ eligibleCount then "moderate"
  else "weak"

/-- The source's strength calculation, characterized: the evidence-"A"
promotion applies only when the group has at least one eligible rule. -/
theorem strengthOf_characterization (data : GroupData) :
    strengthOf data =
      (if 2 ≤ data.eligible_rules.length then "strong"
       else if 1 ≤ data.eligible_rules.length ∧ data.evidence_levels.contains "A" = true then "strong"
       else if 1 ≤ data.eligible_rules.length then "moderate"
       else "weak") := by
  unfold strengthOf
  by_cases h1 : data.eligible_rules.length > 0
  · rw [if_pos h1]
    by_cases h2 : data.eligible_rules.length ≥ 2
    · rw [if_pos h2, if_pos h2]
    · rw [if_neg h2, if_neg h2]
      by_cases hA : data.evidence_levels.contains "A" = true
      · rw [if_pos hA, if_pos ⟨by omega, hA⟩]
      · rw [if_neg hA, if_neg (fun hc => hA hc.2), if_pos (by omega)]
  · rw [if_neg h1, if_neg (by omega), if_neg (fun hc => h1 (by omega)),
      if_neg (by omega)]

/-- C4 (amended): for every intervention group produced by the
aggregator, the strength is "strong" if the group has at least 2 eligible
rules, or at least 1 eligible rule together with some evaluated rule
carrying evidence level "A"; "moderate" with at least 1 eligible rule
otherwise; and "weak" when the group has no eligible rule — regardless of
evidence levels. -/
theorem C4_strength_requires_eligibility
    (patient : Patient) (rule_results : List (String × RuleOutcome))
    (intr : String) (res : EnhancedEligibilityResult)
    (h : (intr, res) ∈ aggregate_eligibility patient rule_results) :
    ∃ data, (intr, data) ∈ groupByIntervention rule_results ∧
      res.strength =
        (if 2 ≤ data.eligible_rules.length then "strong"
         else if 1 ≤ data.eligible_rules.length ∧ data.evidence_levels.contains "A" = true then "strong"
         else if 1 ≤ data.eligible_rules.length then "moderate"
         else "weak") := by
  unfold aggregate_eligibility at h
  obtain ⟨g, hg, hexp⟩ := List.mem_map.mp h
  obtain ⟨hintr, hres⟩ := Prod.mk.injEq _ _ _ _ ▸ hexp
  refine ⟨g.2, ?_, ?_⟩
  · rw [← hintr]
    exact hg
  · rw [← hres]
    exact strengthOf_characterization g.2

/-- An evaluated-rule map with a single moderate-strength group. -/
def rrModerate : List (String × RuleOutcome) :=
  [("R1", { eligible := true, intervention := "X", met_conditions := ["m"],
            unmet_conditions := [], guideline_ref := "G", evidence_level := "B",
            action := "recommend" })]

/-- The group accumulated from `rrModerate`. -/
def dataModerate : GroupData :=
  { eligible_rules := ["R1"], ineligible_rules := [], guideline_refs := ["G"],
    evidence_levels := ["B"], met := ["m"], unmet := [] }

/-- C4 witness: the theorem applied to a one-eligible-rule group of
evidence level "B" (strength "moderate"). -/
theorem C4_strength_requires_eligibility_witness :
    ∃ data, ("X", data) ∈ groupByIntervention rrModerate ∧
      (buildEligibilityResult patient0 "X" dataModerate).strength =
        (if 2 ≤ data.eligible_rules.length then "strong"
         else if 1 ≤ data.eligible_rules.length ∧ data.evidence_levels.contains "A" = true then "strong"
         else if 1 ≤ data.eligible_rules.length then "moderate"
         else "weak") :=
  C4_strength_requires_eligibility patient0 rrModerate "X"
    (buildEligibilityResult patient0 "X" dataModerate) (by decide)

/-- An evaluated-rule map with a single ineligible rule of evidence
level "A". -/
def rrWeakDespiteA : List (String × RuleOutcome) :=
  [("R1", { eligible := false, intervention := "X", met_conditions := [],
            unmet_conditions := ["u"], guideline_ref := "G", evidence_level := "A",
            action := "recommend" })]

/-- C4 counterexample: a group with 0 eligible rules whose only evaluated
rule carries evidence level "A" gets strength "weak" from the code, while
the claim's rule ("strong if ... any evaluated rule in the group,
eligible or not, carries evidence level A") yields "strong". -/
theorem C4_weak_despite_evidence_A_counterexample :
    (aggregate_eligibility patient0 rrWeakDespiteA).map (fun e => (e.1, e.2.strength)) =
        [("X", "weak")] ∧
      (groupByIntervention rrWeakDespiteA).map
          (fun g => (g.1, g.2.eligible_rules.length, g.2.evidence_levels)) =
        [("X", 0, ["A"])] ∧
      strengthPerClaimC4 0 ["A"] = "strong" :=
  ⟨by rfl, by rfl, by rfl⟩

/-- C5: for a patient with diabetes complications, the eye-exam screening
threshold is exactly 180 days regardless of the configured
`thresholds.annual_eye_exam_days`, with the "Last performed <n> days ago"
reason; other screening types keep their configured threshold
(default 365). -/
theorem C5_eye_exam_complication_override
    (config : ConfigManager) (today : Date) (last : Date) (patient : Patient)
    (hc : patient.diabetes_complications = true) :
    (needs_annual_screening config today (some last) "eye_exam" patient =
        if today - last > 180 then
          (true, some ("Last performed " ++ toString (today - last) ++ " days ago"))
        else (false, none)) ∧
      (∀ typ, typ ≠ "eye_exam" →
        needs_annual_screening config today (some last) typ patient =
          if today - last > config.get ("thresholds.annual_" ++ typ ++ "_days") 365 then
            (true, some ("Last performed " ++ toString (today - last) ++ " days ago"))
          else (false, none)) := by
  constructor
  · have hinner : (if ("eye_exam" : String) = "eye_exam" ∧ patient.diabetes_complications = true
        then (180 : Int)
        else config.get ("thresholds.annual_" ++ "eye_exam" ++ "_days") 365) = 180 :=
      if_pos ⟨rfl, hc⟩
    show (if today - last >
        (if ("eye_exam" : String) = "eye_exam" ∧ patient.diabetes_complications = true then (180 : Int)
         else config.get ("thresholds.annual_" ++ "eye_exam" ++ "_days") 365) then
        (true, some ("Last performed " ++ toString (today - last) ++ " days ago"))
      else (false, none)) = _
    rw [hinner]
  · intro typ htyp
    have hinner : (if typ = "eye_exam" ∧ patient.diabetes_complications = true
        then (180 : Int)
        else config.get ("thresholds.annual_" ++ typ ++ "_days") 365) =
          config.get ("thresholds.annual_" ++ typ ++ "_days") 365 :=
      if_neg (fun hcon => htyp hcon.1)
    show (if today - last >
        (if typ = "eye_exam" ∧ patient.diabetes_complications = true then (180 : Int)
         else config.get ("thresholds.annual_" ++ typ ++ "_days") 365) then
        (true, some ("Last performed " ++ toString (today - last) ++ " days ago"))
      else (false, none)) = _
    rw [hinner]

/-- A patient with a diabetes-complication diagnosis code. -/
def patientComplications : Patient :=
  { patient0 with
    diagnoses := [{ icd10 := "E11.31", mondo := "MONDO:0005148", name := "T2DM with retinopathy" }] }

/-- C5 witness: with `thresholds.annual_eye_exam_days` configured to 365,
an eye exam 190 days old is still flagged (180-day override), while a
foot exam 190 days old is not (365-day threshold). -/
theorem C5_eye_exam_complication_override_witness :
    needs_annual_screening cfgEye365 190 (some 0) "eye_exam" patientComplications =
        (true, some "Last performed 190 days ago") ∧
      needs_annual_screening cfgEye365 190 (some 0) "foot_exam" patientComplications =
        (false, none) := by
  constructor
  · rw [(C5_eye_exam_complication_override cfgEye365 190 0 patientComplications (by decide)).1]
    rfl
  · rw [(C5_eye_exam_complication_override cfgEye365 190 0 patientComplications
      (by decide)).2 "foot_exam" (by decide)]
    rfl

/-- C6 (amended): for an absent fact the lab-currency check fails with
the fixed reason "No lab result" — the kind is NOT interpolated into the
message; for a present fact it computes age in days against
`thresholds.<kind>_recency_days` (default 90) and fails with
"<n> days old (max <m>)" exactly when the age exceeds the threshold,
succeeding with no reason otherwise. -/
theorem C6_is_lab_current_spec (config : ConfigManager) (today : Date)
    (kind : String) :
    is_lab_current config today none kind = (false, some "No lab result") ∧
      ∀ l : LabResult,
        is_lab_current config today (some l) kind =
          (if today - l.date >
              (config.get? ("thresholds." ++ kind ++ "_recency_days")).getD 90 then
             (false, some (toString (today - l.date) ++ " days old (max " ++
               toString ((config.get? ("thresholds." ++ kind ++ "_recency_days")).getD 90) ++ ")"))
           else (true, none)) := by
  refine ⟨rfl, fun l => ?_⟩
  rfl

/-- C6 counterexample: for kind "hba1c" and an absent fact the reason is
the literal "No lab result", not the claimed interpolation
"No hba1c result". -/
theorem C6_reason_not_interpolated_counterexample :
    is_lab_current cfgEmpty 0 none "hba1c" = (false, some "No lab result") ∧
      "No lab result" ≠ "No " ++ "hba1c" ++ " result" :=
  ⟨rfl, by decide⟩

/-- The payer/expiry filter of `evaluate_all`, as a proposition. -/
theorem not_skipped_iff (r : ClinicalRule) (patient : Patient) (today : Date) :
    (!payerSkip r patient && !expirySkip r today) = true ↔
      ((r.payer_specific = none ∨ r.payer_specific = some [] ∨
          ∃ lst s, r.payer_specific = some lst ∧ patient.payer = some s ∧ s ∈ lst) ∧
        (r.expiration_date = none ∨ ∃ d, r.expiration_date = some d ∧ ¬ d < today)) := by
  rw [Bool.and_eq_true, Bool.not_eq_true', Bool.not_eq_true']
  constructor
  · rintro ⟨hp, he⟩
    constructor
    · unfold payerSkip at hp
      cases hps : r.payer_specific with
      | none => exact Or.inl rfl
      | some lst =>
          rw [hps] at hp
          cases hpay : patient.payer with
          | none =>
              rw [hpay] at hp
              simp at hp
              exact Or.inr (Or.inl (by rw [hp]))
          | some s =>
              rw [hpay] at hp
              simp at hp
              rcases eq_or_ne lst [] with h | h
              · exact Or.inr (Or.inl (by rw [h]))
              · exact Or.inr (Or.inr ⟨lst, s, rfl, rfl, hp h⟩)
    · unfold expirySkip at he
      cases hed : r.expiration_date with
      | none => exact Or.inl rfl
      | some d =>
          rw [hed] at he
          simp only [decide_eq_false_iff_not] at he
          exact Or.inr ⟨d, rfl, he⟩
  · rintro ⟨hp, he⟩
    constructor
    · unfold payerSkip
      rcases hp with hnone | hempty | ⟨lst, s, hps, hpay, hmem⟩
      · rw [hnone]
      · rw [hempty]; rfl
      · rw [hps, hpay]
        simp [hmem]
    · unfold expirySkip
      rcases he with hnone | ⟨d, hed, hlt⟩
      · rw [hnone]
      · rw [hed]
        simp only [decide_eq_false_iff_not]
        exact hlt

/-- C7 (amended): `evaluate_all` includes a rule's outcome, keyed by its
unique rule id, iff (the rule has no payer allow-list, or its allow-list
is empty — Python truthiness — or the patient's payer is in the
allow-list) and (the rule has no expiration date or it is not before the
evaluation date); skipped rules produce no entry at all. -/
theorem C7_evaluate_all_inclusion
    (rules : List ClinicalRule) (o : OntologyService) (config : ConfigManager)
    (today : Date) (patient : Patient) (out : List (String × RuleOutcome))
    (hids : (rules.map (fun r => r.rule_id)).Nodup)
    (hok : evaluate_all rules o config today patient = .ok out)
    (r : ClinicalRule) (hr : r ∈ rules) :
    (∃ v, (r.rule_id, v) ∈ out) ↔
      ((r.payer_specific = none ∨ r.payer_specific = some [] ∨
          ∃ lst s, r.payer_specific = some lst ∧ patient.payer = some s ∧ s ∈ lst) ∧
        (r.expiration_date = none ∨ ∃ d, r.expiration_date = some d ∧ ¬ d < today)) := by
  have hkeys : out.map Prod.fst =
      (rules.filter (fun r => !payerSkip r patient && !expirySkip r today)).map
        (fun r => r.rule_id) := by
    refine mapMExcept_ok_map (evalOneRule o config today patient) Prod.fst
      (fun r => r.rule_id) ?_ _ out hok
    intro a b hab
    unfold evalOneRule at hab
    cases he : a.evaluate o config today patient with
    | error e => rw [he] at hab; exact absurd hab (by simp)
    | ok t =>
        obtain ⟨e1, m1, u1⟩ := t
        rw [he] at hab
        simp only [Except.ok.injEq] at hab
        rw [← hab]
  rw [← not_skipped_iff r patient today]
  constructor
  · rintro ⟨v, hv⟩
    have hmem : r.rule_id ∈ out.map Prod.fst := List.mem_map_of_mem Prod.fst hv
    rw [hkeys] at hmem
    obtain ⟨r', hr', hid⟩ := List.mem_map.mp hmem
    have hr'mem : r' ∈ rules := (List.mem_filter.mp hr').1
    have : r' = r :=
      List.inj_on_of_nodup_map hids hr'mem hr hid
    rw [← this]
    exact (List.mem_filter.mp hr').2
  · intro hpred
    have hmem : r.rule_id ∈
        (rules.filter (fun r => !payerSkip r patient && !expirySkip r today)).map
          (fun r => r.rule_id) :=
      List.mem_map_of_mem _ (List.mem_filter.mpr ⟨hr, hpred⟩)
    rw [← hkeys] at hmem
    obtain ⟨p, hp, hpid⟩ := List.mem_map.mp hmem
    exact ⟨p.2, by rw [← hpid]; exact hp⟩

/-- A rule with an empty payer allow-list and no conditions. -/
def ruleEmptyAllow : ClinicalRule :=
  { rule_id := "R0", name := "n", description := "d", intervention := "X"
    conditions := [], action := "recommend", guideline_ref := "g"
    evidence_level := "B", source := "ada", effective_date := 0
    payer_specific := some [] }

/-- A patient whose payer is in no allow-list. -/
def patientAetna : Patient := { patient0 with payer := some "aetna" }

/-- C7 counterexample: a rule declaring a payer allow-list (the empty
one) that does not contain the patient's payer is still evaluated and
keyed in the output — the empty list is falsy in Python, so the skip
never fires — contradicting the claim's "skip when the patient's payer
is not in the declared allow-list". -/
theorem C7_empty_allowlist_not_skipped_counterexample :
    ruleEmptyAllow.payer_specific = some [] ∧
      (∀ s, patientAetna.payer = some s → s ∉ ([] : List String)) ∧
      ∃ v, evaluate_all [ruleEmptyAllow] ontoTrivial cfgEmpty 0 patientAetna =
        .ok [("R0", v)] :=
  ⟨rfl, by simp, ⟨_, by rfl⟩⟩

/-- The outcome `evaluate_all` records for `ruleEmptyAllow`. -/
def outcomeR0 : RuleOutcome :=
  { eligible := true, intervention := "X", met_conditions := [],
    unmet_conditions := [], guideline_ref := "g", evidence_level := "B",
    action := "recommend" }

/-- C7 witness: the inclusion criterion applied to the one-rule registry. -/
theorem C7_evaluate_all_inclusion_witness :
    (∃ v, ("R0", v) ∈ [("R0", outcomeR0)]) ↔
      ((ruleEmptyAllow.payer_specific = none ∨ ruleEmptyAllow.payer_specific = some [] ∨
          ∃ lst s, ruleEmptyAllow.payer_specific = some lst ∧
            patientAetna.payer = some s ∧ s ∈ lst) ∧
        (ruleEmptyAllow.expiration_date = none ∨
          ∃ d, ruleEmptyAllow.expiration_date = some d ∧ ¬ d < 0)) :=
  C7_evaluate_all_inclusion [ruleEmptyAllow] ontoTrivial cfgEmpty 0 patientAetna
    [("R0", outcomeR0)] (by simp) (by rfl) ruleEmptyAllow (by simp)

/-- C8: resolving a well-formed CURIE with a registered prefix cannot
fail: the equivalence set always contains at least the expanded input
node, so it is never empty and `resolve_code` returns one of its members;
an unregistered prefix fails with the unknown-prefix (`KeyError`)
error. -/
theorem C8_resolve_total_on_registered_prefixes
    (o : OntologyService) (curie : String) (pfx code : String)
    (hsplit : splitCurie curie = .ok (pfx, code)) :
    (∀ base, o.ns.lookup pfx = some base →
        ∃ u eqs, o.resolve_code curie = .ok u ∧ o.equivalent curie = .ok eqs ∧
          u ∈ eqs ∧ eqs ≠ []) ∧
      (o.ns.lookup pfx = none →
        o.resolve_code curie = .error (.keyError pfx)) := by
  constructor
  · intro base hbase
    have hns : o.nsLookup pfx = .ok base := by
      unfold OntologyService.nsLookup; rw [hbase]
    obtain ⟨t, ht⟩ := foldl_addUnique_cons
      (o.sameAs (base ++ code) ++ o.exactMatch (base ++ code)) (base ++ code) []
    have heq : o.equivalent curie = .ok ((base ++ code) :: t) := by
      simp only [OntologyService.equivalent, hsplit, hns, ht]
    refine ⟨base ++ code, (base ++ code) :: t, ?_, heq, List.mem_cons_self _ _, by simp⟩
    simp only [OntologyService.resolve_code, hsplit, hns, heq]
  · intro hnone
    have hns : o.nsLookup pfx = .error (.keyError pfx) := by
      unfold OntologyService.nsLookup; rw [hnone]
    simp only [OntologyService.resolve_code, hsplit, hns]

/-- C8 witness: the theorem applied to a concrete ontology — a registered
prefix resolves to a member of its (nonempty) equivalence set, and the
unregistered prefix "xyz" fails with `KeyError`. -/
theorem C8_resolve_total_on_registered_prefixes_witness :
    (∃ u eqs, ontoTrivial.resolve_code "mondo:0005148" = .ok u ∧
        ontoTrivial.equivalent "mondo:0005148" = .ok eqs ∧ u ∈ eqs ∧ eqs ≠ []) ∧
      ontoTrivial.resolve_code "xyz:1" = .error (.keyError "xyz") :=
  ⟨(C8_resolve_total_on_registered_prefixes ontoTrivial "mondo:0005148" "mondo" "0005148"
      (by rfl)).1 "http://purl.obolibrary.org/obo/MONDO_" (by rfl),
    (C8_resolve_total_on_registered_prefixes ontoTrivial "xyz:1" "xyz" "1"
      (by rfl)).2 (by rfl)⟩

/-- C9: evaluating the same patient twice against the same rule set,
graph and configuration, with the evaluation date held fixed, yields
identical validation, eligibility decisions, care gaps and rule outcomes:
the only state the first evaluation mutates is the audit log (and its
clock), which the decisions never read. -/
theorem C9_evaluation_idempotent
    (st : EngineState) (today : Date) (patient : Patient)
    (out₁ : EngineOutput) (st₁ : EngineState)
    (h : engineEvaluate st today patient = .ok (out₁, st₁)) :
    ∃ out₂ st₂, engineEvaluate st₁ today patient = .ok (out₂, st₂) ∧
      out₂.validation = out₁.validation ∧
      out₂.eligibility = out₁.eligibility ∧
      out₂.care_gaps = out₁.care_gaps ∧
      out₂.rule_evaluations = out₁.rule_evaluations := by
  unfold engineEvaluate logEvaluation at h
  cases hrr : evaluate_all st.rules st.ontology st.config today patient with
  | error e => rw [hrr] at h; exact absurd h (by simp)
  | ok rr =>
      rw [hrr] at h
      simp only [Except.ok.injEq, Prod.mk.injEq] at h
      obtain ⟨hout, hst⟩ := h
      have hcfg : st₁.config = st.config := by rw [← hst]
      have hrules : st₁.rules = st.rules := by rw [← hst]
      have honto : st₁.ontology = st.ontology := by rw [← hst]
      unfold engineEvaluate logEvaluation
      rw [hcfg, hrules, honto, hrr]
      refine ⟨_, _, rfl, ?_, ?_, ?_, ?_⟩ <;> rw [← hout]

/-- A fresh engine holding the two-condition rule. -/
def engineState0 : EngineState :=
  { config := cfgEmpty, rules := [ruleTwoUnknown], ontology := ontoTrivial,
    clinician_id := none, audit_entries := [], clock := 0 }

/-- The rule outcomes of `engineState0` on `patient0`. -/
def rrState0 : List (String × RuleOutcome) :=
  [("RZ", { eligible := false, intervention := "Z", met_conditions := [],
            unmet_conditions := ["Condition type not implemented",
              "Condition type not implemented"],
            guideline_ref := "g", evidence_level := "B", action := "recommend" })]

/-- The output of the first evaluation of `patient0` on `engineState0`. -/
def engineOut0 : EngineOutput :=
  { validation := validate_patient_data cfgEmpty 0 patient0
    eligibility := aggregate_eligibility patient0 rrState0
    care_gaps := identify_care_gaps cfgEmpty 0 patient0
    rule_evaluations := rrState0
    audit_trail_id := "0" }

/-- The audit entry recorded by the first evaluation. -/
def auditEntry0 : AuditEntry :=
  { tick := 0, patient_id := "P0", clinician_id := none,
    action := "clinical_evaluation", diagnoses_names := [], labs_count := 0,
    medications_count := 0, rules_evaluated := ["RZ"], payer := none }

/-- The engine state after the first evaluation: one audit entry, clock
advanced. -/
def engineState1 : EngineState :=
  { engineState0 with audit_entries := [auditEntry0], clock := 1 }

/-- C9 witness: the theorem applied to a concrete engine state and
patient. -/
theorem C9_evaluation_idempotent_witness :
    ∃ out₂ st₂, engineEvaluate engineState1 0 patient0 = .ok (out₂, st₂) ∧
      out₂.validation = engineOut0.validation ∧
      out₂.eligibility = engineOut0.eligibility ∧
      out₂.care_gaps = engineOut0.care_gaps ∧
      out₂.rule_evaluations = engineOut0.rule_evaluations :=
  C9_evaluation_idempotent engineState0 0 patient0 engineOut0 engineState1 (by rfl)

/-- C10 (amended): `Patient.bmi` is total and never divides by zero: it
returns `none` exactly when vital signs are absent, `weight_kg` is
missing or zero (Python truthiness), or `height_cm` is missing, zero or
negative; otherwise it returns the weight divided by the square of the
height in metres, whose divisor is provably nonzero. -/
theorem C10_bmi_total_and_guarded (p : Patient) :
    (p.bmi = none ↔
        p.vital_signs = none ∨
          ∃ vs, p.vital_signs = some vs ∧
            (vs.weight_kg = none ∨ vs.weight_kg = some 0 ∨ vs.height_cm = none ∨
              ∃ h, vs.height_cm = some h ∧ h ≤ 0)) ∧
      (∀ vs w h, p.vital_signs = some vs → vs.weight_kg = some w →
        vs.height_cm = some h → w ≠ 0 → 0 < h →
        p.bmi = some (w / ((h / 100) ^ 2)) ∧ ((h / 100 : Rat) ^ 2) ≠ 0) := by
  constructor
  · constructor
    · intro hnone
      cases hvs : p.vital_signs with
      | none => exact Or.inl rfl
      | some vs =>
          refine Or.inr ⟨vs, rfl, ?_⟩
          cases hw : vs.weight_kg with
          | none => exact Or.inl rfl
          | some w =>
              cases hh : vs.height_cm with
              | none => exact Or.inr (Or.inr (Or.inl rfl))
              | some h =>
                  by_cases hw0 : w = 0
                  · exact Or.inr (Or.inl (by rw [hw0]))
                  · by_cases hpos : 0 < h
                    · exfalso
                      have hbmi : p.bmi = some (w / ((h / 100) ^ 2)) := by
                        unfold Patient.bmi
                        rw [hvs]
                        simp only [hw, hh]
                        rw [if_neg hw0,
                          if_neg (fun hc => absurd hc.symm (ne_of_lt hpos)),
                          if_neg (not_le.mpr hpos)]
                      rw [hbmi] at hnone
                      exact Option.noConfusion hnone
                    · exact Or.inr (Or.inr (Or.inr ⟨h, rfl, not_lt.mp hpos⟩))
    · intro hcases
      rcases hcases with hvs | ⟨vs, hvs, hcase⟩
      · unfold Patient.bmi; rw [hvs]
      · unfold Patient.bmi
        rw [hvs]
        rcases hcase with hw | hw0 | hh | ⟨h, hh, hle⟩
        · cases hh : vs.height_cm with
          | none => simp [hw, hh]
          | some h => simp [hw, hh]
        · cases hh : vs.height_cm with
          | none => simp [hw0, hh]
          | some h => simp [hw0, hh]
        · cases hw : vs.weight_kg with
          | none => simp [hw, hh]
          | some w => simp [hw, hh]
        · cases hw : vs.weight_kg with
          | none => simp [hw, hh]
          | some w =>
              by_cases hw0 : w = 0
              · simp [hw, hh, hw0]
              · rcases lt_or_eq_of_le hle with hlt | heq
                · simp [hw, hh, hw0, ne_of_lt hlt, hle]
                · subst heq
                  simp [hw, hh, hw0]
  · intro vs w h hvs hw hh hw0 hh0
    constructor
    · unfold Patient.bmi
      rw [hvs]
      simp only [hw, hh]
      rw [if_neg hw0, if_neg (by intro hc; exact absurd hc.symm (ne_of_lt hh0)),
        if_neg (not_le.mpr hh0)]
    · exact pow_ne_zero 2 (div_ne_zero (ne_of_gt hh0) (by norm_num))

/-- A patient with ordinary vitals. -/
def patientVitals : Patient :=
  { patient0 with vital_signs := some { weight_kg := some 70, height_cm := some 175 } }

/-- C10 witness: the positive branch at weight 70 kg, height 175 cm. -/
theorem C10_bmi_total_and_guarded_witness :
    patientVitals.bmi = some ((70 : Rat) / ((175 / 100) ^ 2)) ∧
      (((175 : Rat) / 100) ^ 2) ≠ 0 :=
  (C10_bmi_total_and_guarded patientVitals).2
    { weight_kg := some 70, height_cm := some 175 } 70 175 rfl rfl rfl
    (by norm_num) (by norm_num)

/-- A patient whose recorded weight is 0 kg but whose vitals are
otherwise present with a positive height. -/
def patientZeroWeight : Patient :=
  { patient0 with vital_signs := some { weight_kg := some 0, height_cm := some 170 } }

/-- C10 counterexample: vital signs are present, the weight is present
(0), and the height is present and strictly positive, so the claim
requires `bmi` to return the division result — but the code's Python
truthiness test (`not weight_kg`) treats the 0 weight as missing and
returns `None`. -/
theorem C10_zero_weight_counterexample :
    patientZeroWeight.vital_signs = some { weight_kg := some 0, height_cm := some 170 } ∧
      (0 : Rat) < 170 ∧ patientZeroWeight.bmi = none :=
  ⟨rfl, by norm_num, rfl⟩

end ADA
